import Mathlib

/-!
Shallow embedding of the overlay window geometry and hover-detection code of
openNook (src/src-tauri/src/window.rs, macOS branch).  Machine floating-point
values are modelled as rationals; the comparisons and affine arithmetic the
code performs are exact on the inputs considered here.  OS calls (NSScreen,
NSEvent, Tauri window operations) appear as explicit inputs: the possibly-null
main screen is an `Option MacScreen`, the cursor location is a pair of
coordinates, and per-tick externally visible effects are recorded in a
`TickEffects` value.
-/

namespace OpenNook

/-- Window size settings (struct WindowSettings in window.rs): extra width and
height margins and the non-notch-mode flag. -/
structure WindowSettings where
  extra_width : ℚ
  extra_height : ℚ
  non_notch_mode : Bool
  deriving DecidableEq, Repr

/-- Defaults from `impl Default for WindowSettings`. -/
def WindowSettings.default : WindowSettings :=
  { extra_width := 400, extra_height := 800, non_notch_mode := false }

/-- UI element bounds reported by the frontend (struct UiBounds), in
window-local coordinates. -/
structure UiBounds where
  x : ℚ
  y : ℚ
  width : ℚ
  height : ℚ
  deriving DecidableEq, Repr

/-- The data the macOS branch of get_screen_info reads from NSScreen:
the frame size and the top safe-area inset. -/
structure MacScreen where
  frame_width : ℚ
  frame_height : ℚ
  safe_area_top : ℚ
  deriving DecidableEq, Repr

/-- The tuple (screen_width, screen_height, notch_height, notch_width)
returned by get_screen_info, as a record. -/
structure ScreenData where
  screen_width : ℚ
  screen_height : ℚ
  notch_height : ℚ
  notch_width : ℚ
  deriving DecidableEq, Repr

/-- get_screen_info, macOS branch (window.rs lines 202-241).  `none` models
`[NSScreen mainScreen]` returning null, in which case all four fields are
zero.  Otherwise the notch height is `clamp(screen_height * 0.1, 38, 52)`
when the top inset is `>= 0` (else 0), and the notch width is
`clamp(screen_width * 0.1, 200, 260)` when the top inset is `> 0`
(else the constant 180). -/
def get_screen_info (screen : Option MacScreen) : ScreenData :=
  match screen with
  | none => ⟨0, 0, 0, 0⟩
  | some s =>
      let notch_height : ℚ :=
        if 0 ≤ s.safe_area_top then min (max (s.frame_height * (1/10)) 38) 52 else 0
      let notch_width : ℚ :=
        if 0 < s.safe_area_top then min (max (s.frame_width * (1/10)) 200) 260 else 180
      ⟨s.frame_width, s.frame_height, notch_height, notch_width⟩

/-- NotchInfo (struct NotchInfo in models.rs). -/
structure NotchInfo where
  has_notch : Bool
  notch_height : ℚ
  notch_width : ℚ
  screen_width : ℚ
  screen_height : ℚ
  visible_height : ℚ
  deriving DecidableEq, Repr

/-- get_notch_info command (window.rs lines 287-302): always wraps the current
geometry in `Some`, with `has_notch = notch_height > 0` and
`visible_height = screen_height - notch_height`. -/
def get_notch_info (screen : Option MacScreen) : Option NotchInfo :=
  let d := get_screen_info screen
  let has_notch := decide (0 < d.notch_height)
  let visible_height := d.screen_height - d.notch_height
  some ⟨has_notch, d.notch_height, d.notch_width, d.screen_width, d.screen_height,
    visible_height⟩

/-- Size and position applied to the window by setup_fixed_window_size. -/
structure WindowRect where
  width : ℚ
  height : ℚ
  x : ℚ
  y : ℚ
  deriving DecidableEq, Repr

/-- setup_fixed_window_size (window.rs lines 399-425): queries the screen and
the settings store, then applies `width = (notch_width + 160) + extra_width`,
`height = notch_height + extra_height`, centered horizontally at `y = 0`.
Note that the code uses the raw `notch_width` here regardless of
`non_notch_mode`. -/
def setup_fixed_window_size (screen : Option MacScreen)
    (settings : WindowSettings) : WindowRect :=
  let d := get_screen_info screen
  let target_width := (d.notch_width + 160) + settings.extra_width
  let target_height := d.notch_height + settings.extra_height
  let x := (d.screen_width - target_width) / 2
  let y : ℚ := 0
  ⟨target_width, target_height, x, y⟩

/-- In-memory state the settings commands operate on: the process-wide
settings store and the externally persisted copy (the single
`window_settings` row of the settings table; `none` when absent). -/
structure AppState where
  settings : WindowSettings
  db : Option WindowSettings
  deriving DecidableEq, Repr

/-- get_window_settings command (window.rs lines 364-368): returns a copy of
the store contents. -/
def get_window_settings (st : AppState) : WindowSettings := st.settings

/-- persist_window_settings (window.rs lines 134-142): writes the serialized
settings under the `window_settings` key.  Every failure (no connection, or
`conn.execute` erroring) is discarded with `let _ = ...`, leaving the stored
row unchanged; `persistOk` models whether the write succeeds. -/
def persist_window_settings (persistOk : Bool) (db : Option WindowSettings)
    (s : WindowSettings) : Option WindowSettings :=
  if persistOk then some s else db

/-- update_window_settings command (window.rs lines 372-395): overwrites the
three store fields under the write lock, calls persist_window_settings (whose
failures are swallowed), then re-applies the fixed window size to the main
window and returns `Ok(())`.  The window resize itself does not touch the
stores and is modelled as succeeding. -/
def update_window_settings (persistOk : Bool) (st : AppState)
    (extra_width extra_height : ℚ) (non_notch_mode : Bool) :
    AppState × Except String Unit :=
  let s : WindowSettings :=
    { extra_width := extra_width, extra_height := extra_height,
      non_notch_mode := non_notch_mode }
  let db := persist_window_settings persistOk st.db s
  ({ settings := s, db := db }, Except.ok ())

/-- Hysteresis enter padding (window.rs line 706). -/
def PADDING_ENTER : ℚ := 20

/-- Hysteresis exit padding (window.rs line 707). -/
def PADDING_EXIT : ℚ := 30

/-- Per-iteration effective notch width (window.rs lines 715-719):
zero in non-notch mode, the measured notch width otherwise. -/
def effective_notch_width (settings : WindowSettings) (notch_width : ℚ) : ℚ :=
  if settings.non_notch_mode then 0 else notch_width

/-- Left edge of the fallback hit zone (window.rs line 721). -/
def fallback_x_start (settings : WindowSettings) (screen_width notch_width : ℚ) : ℚ :=
  (screen_width - effective_notch_width settings notch_width) / 2

/-- Right edge of the fallback hit zone (window.rs line 722). -/
def fallback_x_end (settings : WindowSettings) (screen_width notch_width : ℚ) : ℚ :=
  fallback_x_start settings screen_width notch_width +
    effective_notch_width settings notch_width

/-- Bottom edge of the fallback hit zone (window.rs lines 723-727): 1.0 in
non-notch mode regardless of the notch height, else the notch height. -/
def fallback_y_end (settings : WindowSettings) (notch_height : ℚ) : ℚ :=
  if settings.non_notch_mode then 1 else notch_height

/-- Horizontal padding of the broad pre-filter (window.rs line 748). -/
def broad_padding_x (settings : WindowSettings) : ℚ :=
  if settings.non_notch_mode then 60 else 300

/-- Vertical limit of the broad pre-filter (window.rs line 749). -/
def broad_limit_y (settings : WindowSettings) : ℚ :=
  if settings.non_notch_mode then 50 else 250

/-- Values the macOS setup_mouse_monitoring computes once, before spawning the
monitoring thread (window.rs lines 677-698): the screen geometry and the
pre-computed window x-position derived from the settings read at that
moment. -/
structure MonitorConfig where
  screen_width : ℚ
  screen_height : ℚ
  notch_height : ℚ
  notch_width : ℚ
  window_x : ℚ
  deriving DecidableEq, Repr

/-- The setup phase of setup_mouse_monitoring (window.rs lines 677-683):
`win_width = notch_width + 160 + extra_width` and
`window_x = (screen_width - win_width) / 2`, both from the settings `s0`
current when monitoring starts. -/
def setup_mouse_monitoring (screen : Option MacScreen)
    (s0 : WindowSettings) : MonitorConfig :=
  let d := get_screen_info screen
  let win_width := d.notch_width + 160 + s0.extra_width
  { screen_width := d.screen_width, screen_height := d.screen_height,
    notch_height := d.notch_height, notch_width := d.notch_width,
    window_x := (d.screen_width - win_width) / 2 }

/-- Broad pre-filter test (window.rs lines 751-753): the cursor is roughly in
the top-middle area. -/
def is_in_interaction_zone (cfg : MonitorConfig) (settings : WindowSettings)
    (mouse_x flipped_y : ℚ) : Bool :=
  decide (fallback_x_start settings cfg.screen_width cfg.notch_width -
      broad_padding_x settings ≤ mouse_x) &&
  decide (mouse_x ≤ fallback_x_end settings cfg.screen_width cfg.notch_width +
      broad_padding_x settings) &&
  decide (flipped_y ≤ broad_limit_y settings)

/-- Precise hit test (window.rs lines 767-786).  With UI bounds available the
bounds are translated by the pre-computed `window_x` and expanded by the
selected padding; otherwise (no bounds yet, or the try_read lock lost — both
branches are textually identical) the fallback zone expanded by the same
padding is used. -/
def hit_test (cfg : MonitorConfig) (settings : WindowSettings)
    (ui : Option UiBounds) (padding mouse_x flipped_y : ℚ) : Bool :=
  match ui with
  | some bounds =>
      let sx := cfg.window_x + bounds.x
      let sy := bounds.y
      decide (sx - padding ≤ mouse_x) &&
      decide (mouse_x ≤ sx + bounds.width + padding) &&
      decide (sy - padding ≤ flipped_y) &&
      decide (flipped_y ≤ sy + bounds.height + padding)
  | none =>
      decide (fallback_x_start settings cfg.screen_width cfg.notch_width -
          padding ≤ mouse_x) &&
      decide (mouse_x ≤ fallback_x_end settings cfg.screen_width cfg.notch_width +
          padding) &&
      decide (-padding ≤ flipped_y) &&
      decide (flipped_y ≤ fallback_y_end settings cfg.notch_height + padding)

/-- Notifications emitted by the detector. -/
inductive MouseEvent where
  | entered
  | exited
  deriving DecidableEq, Repr

/-- Externally visible effects of one detector tick: the notifications
emitted, the argument passed to set_ignore_cursor_events when it is called
(`none` when it is not), and whether the app was activated. -/
structure TickEffects where
  events : List MouseEvent
  set_ignore_cursor : Option Bool
  activated : Bool
  deriving DecidableEq, Repr

/-- A tick with no externally visible effect. -/
def TickEffects.silent : TickEffects := ⟨[], none, false⟩

/-- Inputs sampled by one iteration of the monitoring loop: the settings
re-read from the store this tick, the try_read of the UI bounds store
(`none` covers both an empty store and a lost lock, which take the same
fallback branch), the cached screen height, and the raw cursor location in
bottom-left-origin coordinates from NSEvent.mouseLocation. -/
structure TickInput where
  settings : WindowSettings
  ui : Option UiBounds
  cached_screen_height : ℚ
  mouse_x : ℚ
  mouse_y : ℚ
  deriving DecidableEq, Repr

/-- One iteration of the macOS monitoring loop (window.rs lines 712-846).
`inside` is the IS_INSIDE flag.  The cursor y is flipped to
top-of-screen-distance; if the broad pre-filter fails while outside, the
iteration ends with no effect.  Otherwise the hysteresis padding is selected
by the current state and the precise hit test decides the transition:
Outside→Inside emits "entered", disables click-through
(set_ignore_cursor_events(false)) and activates the app; Inside→Outside
emits "exited" and re-enables click-through; otherwise nothing happens. -/
def tick (cfg : MonitorConfig) (inside : Bool) (inp : TickInput) :
    Bool × TickEffects :=
  let settings := inp.settings
  let flipped_y := inp.cached_screen_height - inp.mouse_y
  if !(is_in_interaction_zone cfg settings inp.mouse_x flipped_y) && !inside then
    (inside, TickEffects.silent)
  else
    let padding := if inside then PADDING_EXIT else PADDING_ENTER
    let in_ui_area := hit_test cfg settings inp.ui padding inp.mouse_x flipped_y
    if in_ui_area && !inside then
      (true, ⟨[MouseEvent.entered], some false, true⟩)
    else if !in_ui_area && inside then
      (false, ⟨[MouseEvent.exited], some true, false⟩)
    else
      (inside, TickEffects.silent)

/-- The monitoring loop run over a finite list of tick inputs, collecting the
final state and all emitted notifications in order. -/
def monitorRun (cfg : MonitorConfig) (inside : Bool)
    (inputs : List TickInput) : Bool × List MouseEvent :=
  match inputs with
  | [] => (inside, [])
  | inp :: rest =>
      let step := tick cfg inside inp
      let next := monitorRun cfg step.1 rest
      (next.1, step.2.events ++ next.2)

/-! Theorems -/

/-- C1 counterexample: with `non_notch_mode = true` the claim demands
`window_width = 0 + 160 + extra_width`, but on a notched screen
(frame 2000×1200, top inset 32, hence notch_width 200) with
`extra_width = 400` the code produces width 760 = 200 + 160 + 400,
not 560. -/
theorem c1_counterexample :
    (setup_fixed_window_size (some ⟨2000, 1200, 32⟩) ⟨400, 800, true⟩).width = 760 ∧
    (760 : ℚ) ≠ 0 + 160 + 400 := by
  constructor
  · norm_num [setup_fixed_window_size, get_screen_info]
  · norm_num

/-- C1 (amended): setup_fixed_window_size always yields
`window_width = notch_width + 160 + extra_width` (the raw notch width, with
no non_notch_mode adjustment), `window_height = notch_height + extra_height`,
`window_x = (screen_width - window_width) / 2` and `window_y = 0`. -/
theorem c1_fixed_window_size (screen : Option MacScreen)
    (settings : WindowSettings) :
    (setup_fixed_window_size screen settings).width =
      (get_screen_info screen).notch_width + 160 + settings.extra_width ∧
    (setup_fixed_window_size screen settings).height =
      (get_screen_info screen).notch_height + settings.extra_height ∧
    (setup_fixed_window_size screen settings).x =
      ((get_screen_info screen).screen_width -
        (setup_fixed_window_size screen settings).width) / 2 ∧
    (setup_fixed_window_size screen settings).y = 0 :=
  ⟨rfl, rfl, rfl, rfl⟩

/-- C2 counterexample: at a concrete input where persistence fails
(persistOk = false), update_window_settings returns `Ok(())`, not an error
string; the in-memory store does receive the new settings while the persisted
row is unchanged. -/
theorem c2_counterexample :
    (update_window_settings false ⟨WindowSettings.default, none⟩ 1 2 true).2 =
      Except.ok () ∧
    get_window_settings
      (update_window_settings false ⟨WindowSettings.default, none⟩ 1 2 true).1 =
      ⟨1, 2, true⟩ ∧
    (update_window_settings false ⟨WindowSettings.default, none⟩ 1 2 true).1.db =
      none :=
  ⟨rfl, rfl, rfl⟩

/-- C2 (amended): when persisting the settings fails during
update_window_settings, the failure is silently swallowed — the command still
returns `Ok(())`, no error string reaches the caller — while the new settings
are applied to the in-memory store (a subsequent get_window_settings returns
the new values) and the external store keeps its previous contents. -/
theorem c2_persist_failure_swallowed (st : AppState) (w h : ℚ) (m : Bool) :
    (update_window_settings false st w h m).2 = Except.ok () ∧
    get_window_settings (update_window_settings false st w h m).1 = ⟨w, h, m⟩ ∧
    (update_window_settings false st w h m).1.db = st.db :=
  ⟨rfl, rfl, rfl⟩

/-- C4: for all values w, h, m (and whatever the persistence outcome),
update_window_settings(w, h, m) followed by get_window_settings() returns
exactly `{extra_width := w, extra_height := h, non_notch_mode := m}`. -/
theorem c4_round_trip (persistOk : Bool) (st : AppState) (w h : ℚ) (m : Bool) :
    get_window_settings (update_window_settings persistOk st w h m).1 =
      ⟨w, h, m⟩ :=
  rfl

/-- C5: the precise hit test passes, when UI bounds are available, exactly
when `mouse_x` lies in `[window_x + x - p, window_x + x + width + p]` and the
top-normalized cursor y lies in `[y - p, y + height + p]`; with no UI bounds
available the same test is applied to the fallback zone
`[fallback_x_start, fallback_x_end] × [0, fallback_y_end]` expanded by the
same padding. -/
theorem c5_hit_test_characterization (cfg : MonitorConfig)
    (s : WindowSettings) (b : UiBounds) (padding mouse_x flipped_y : ℚ) :
    (hit_test cfg s (some b) padding mouse_x flipped_y = true ↔
      (cfg.window_x + b.x - padding ≤ mouse_x ∧
       mouse_x ≤ cfg.window_x + b.x + b.width + padding ∧
       b.y - padding ≤ flipped_y ∧
       flipped_y ≤ b.y + b.height + padding)) ∧
    (hit_test cfg s none padding mouse_x flipped_y = true ↔
      (fallback_x_start s cfg.screen_width cfg.notch_width - padding ≤ mouse_x ∧
       mouse_x ≤ fallback_x_end s cfg.screen_width cfg.notch_width + padding ∧
       0 - padding ≤ flipped_y ∧
       flipped_y ≤ fallback_y_end s cfg.notch_height + padding)) := by
  constructor <;> simp [hit_test, and_assoc, zero_sub]

/-- Helper: once Inside, every tick whose cursor still passes the exit-padded
hit test keeps the state Inside and emits nothing. -/
theorem monitorRun_stays_inside (cfg : MonitorConfig) (s : WindowSettings)
    (ui : Option UiBounds) (ch : ℚ) (ps : List (ℚ × ℚ))
    (h : ∀ p ∈ ps, hit_test cfg s ui PADDING_EXIT p.1 (ch - p.2) = true) :
    monitorRun cfg true (ps.map fun p => ⟨s, ui, ch, p.1, p.2⟩) = (true, []) := by
  induction ps with
  | nil => rfl
  | cons p ps ih =>
      have hp : hit_test cfg s ui PADDING_EXIT p.1 (ch - p.2) = true :=
        h p (List.mem_cons_self p ps)
      have hrest : ∀ q ∈ ps, hit_test cfg s ui PADDING_EXIT q.1 (ch - q.2) = true :=
        fun q hq => h q (List.mem_cons_of_mem p hq)
      simp [monitorRun, tick, hp, ih hrest, TickEffects.silent]

/-- C3: the enter padding (20) is strictly less than the exit padding (30),
and a trajectory that starts Outside, first hits a point passing the broad
filter and the enter-padded hit test, and afterwards stays at points passing
the exit-padded hit test, produces exactly one "entered" notification and no
"exited" — the detector stays Inside throughout the exit margin. -/
theorem c3_hysteresis_no_flicker :
    PADDING_ENTER < PADDING_EXIT ∧
    ∀ (cfg : MonitorConfig) (s : WindowSettings) (ui : Option UiBounds) (ch : ℚ)
      (p0 : ℚ × ℚ) (ps : List (ℚ × ℚ)),
      is_in_interaction_zone cfg s p0.1 (ch - p0.2) = true →
      hit_test cfg s ui PADDING_ENTER p0.1 (ch - p0.2) = true →
      (∀ p ∈ ps, hit_test cfg s ui PADDING_EXIT p.1 (ch - p.2) = true) →
      monitorRun cfg false ((p0 :: ps).map fun p => ⟨s, ui, ch, p.1, p.2⟩) =
        (true, [MouseEvent.entered]) := by
  refine ⟨by norm_num [PADDING_ENTER, PADDING_EXIT], ?_⟩
  intro cfg s ui ch p0 ps hzone hhit hrest
  simp [monitorRun, tick, hzone, hhit,
    monitorRun_stays_inside cfg s ui ch ps hrest, TickEffects.silent]

/-- C3 witness: on a 2000×1200 notched screen with the fallback zone
[900, 1100] × [0, 52], the cursor enters at (1000, 10-from-top) and then moves
to (875, 10), which is outside the enter-padded zone (left edge 880) but
inside the exit-padded zone (left edge 870); the run emits a single
"entered". -/
theorem c3_witness :
    monitorRun ⟨2000, 1200, 52, 200, 620⟩ false
      ((((1000, 1190) : ℚ × ℚ) :: [((875 : ℚ), (1190 : ℚ))]).map
        fun p => ⟨⟨400, 800, false⟩, none, 1200, p.1, p.2⟩) =
      (true, [MouseEvent.entered]) :=
  c3_hysteresis_no_flicker.2 ⟨2000, 1200, 52, 200, 620⟩ ⟨400, 800, false⟩
    none 1200 (1000, 1190) [(875, 1190)]
    (by norm_num [is_in_interaction_zone, fallback_x_start, fallback_x_end,
      effective_notch_width, broad_padding_x, broad_limit_y])
    (by norm_num [hit_test, fallback_x_start, fallback_x_end,
      effective_notch_width, fallback_y_end, PADDING_ENTER])
    (by
      intro p hp
      rw [List.mem_singleton] at hp
      subst hp
      norm_num [hit_test, fallback_x_start, fallback_x_end,
        effective_notch_width, fallback_y_end, PADDING_EXIT])

/-- C6: a tick whose cursor fails the broad pre-filter while the state is
Outside ends immediately with no externally visible effect: the state stays
Outside, no notification is emitted, click-through is not toggled and the app
is not activated.  (The skip branch returns before the precise hit test is
reached.) -/
theorem c6_broad_prefilter_skips (cfg : MonitorConfig) (inp : TickInput)
    (h : is_in_interaction_zone cfg inp.settings inp.mouse_x
        (inp.cached_screen_height - inp.mouse_y) = false) :
    tick cfg false inp = (false, TickEffects.silent) := by
  simp [tick, h]

/-- C6 witness: with the fallback zone [900, 1100] and broad padding 300, a
cursor at x = 0 fails the broad filter and the tick has no effect. -/
theorem c6_witness :
    is_in_interaction_zone ⟨2000, 1200, 52, 200, 620⟩ ⟨400, 800, false⟩ 0
      ((1200 : ℚ) - 1190) = false ∧
    tick ⟨2000, 1200, 52, 200, 620⟩ false ⟨⟨400, 800, false⟩, none, 1200, 0, 1190⟩ =
      (false, TickEffects.silent) :=
  ⟨by norm_num [is_in_interaction_zone, fallback_x_start, fallback_x_end,
      effective_notch_width, broad_padding_x, broad_limit_y],
   c6_broad_prefilter_skips _ _
    (by norm_num [is_in_interaction_zone, fallback_x_start, fallback_x_end,
      effective_notch_width, broad_padding_x, broad_limit_y])⟩

/-- C7 counterexample: two no-inset screens (safe_area_top = 0) with frame
heights 400 and 520 get notch heights 40 and 52 respectively — the
notch height is not set to a fixed fallback constant. -/
theorem c7_counterexample :
    (get_screen_info (some ⟨1000, 400, 0⟩)).notch_height = 40 ∧
    (get_screen_info (some ⟨1000, 520, 0⟩)).notch_height = 52 ∧
    (40 : ℚ) ≠ 52 := by
  refine ⟨?_, ?_, by norm_num⟩ <;>
    norm_num [get_screen_info, min_def, max_def]

/-- C7 (amended): notch_width and notch_height are always non-negative, and
when the platform reports no top inset (safe_area_top = 0) the notch width is
forced to the fixed nonzero constant 180 while the notch height keeps the
clamped heuristic value, which lies in [38, 52] — nonzero, but dependent on
the screen height rather than a fixed constant. -/
theorem c7_notch_dimensions (screen : Option MacScreen) :
    0 ≤ (get_screen_info screen).notch_height ∧
    0 ≤ (get_screen_info screen).notch_width ∧
    ∀ t : MacScreen, screen = some t → t.safe_area_top = 0 →
      (get_screen_info screen).notch_width = 180 ∧
      38 ≤ (get_screen_info screen).notch_height ∧
      (get_screen_info screen).notch_height ≤ 52 := by
  cases screen with
  | none =>
      refine ⟨le_refl 0, le_refl 0, ?_⟩
      intro t ht
      exact absurd ht (by simp)
  | some s =>
      simp only [get_screen_info]
      refine ⟨?_, ?_, ?_⟩
      · split_ifs with h
        · exact le_min (le_trans (by norm_num) (le_max_right _ _)) (by norm_num)
        · exact le_refl 0
      · split_ifs with h
        · exact le_min (le_trans (by norm_num) (le_max_right _ _)) (by norm_num)
        · norm_num
      · intro t ht htop
        obtain rfl : s = t := by injection ht
        rw [htop]
        norm_num

/-- C7 witness: a no-inset screen of frame 1500×960 gets notch_width 180 and
notch_height 52 (the clamp of 96), within the stated bounds. -/
theorem c7_witness :
    0 ≤ (get_screen_info (some ⟨1500, 960, 0⟩)).notch_height ∧
    0 ≤ (get_screen_info (some ⟨1500, 960, 0⟩)).notch_width ∧
    ((get_screen_info (some ⟨1500, 960, 0⟩)).notch_width = 180 ∧
     38 ≤ (get_screen_info (some ⟨1500, 960, 0⟩)).notch_height ∧
     (get_screen_info (some ⟨1500, 960, 0⟩)).notch_height ≤ 52) :=
  have h := c7_notch_dimensions (some ⟨1500, 960, 0⟩)
  ⟨h.1, h.2.1, h.2.2 ⟨1500, 960, 0⟩ rfl rfl⟩

/-- C8: when the main screen query returns null, get_screen_info returns the
all-zero geometry instead of failing, and get_notch_info still returns a
`some` snapshot built from it (with has_notch = false); moreover for every
screen input get_notch_info returns `some` with
`has_notch = (notch_height > 0)`. -/
theorem c8_degenerate_geometry :
    get_screen_info none = ⟨0, 0, 0, 0⟩ ∧
    get_notch_info none = some ⟨false, 0, 0, 0, 0, 0⟩ ∧
    ∀ screen : Option MacScreen, ∃ info : NotchInfo,
      get_notch_info screen = some info ∧
      info.has_notch = decide (0 < (get_screen_info screen).notch_height) :=
  ⟨rfl, by norm_num [get_notch_info, get_screen_info],
   fun screen => ⟨_, rfl, rfl⟩⟩

/-- C9: on every detector tick with non_notch_mode = true the effective notch
width used to derive the fallback zone is 0 and the fallback vertical extent
is 1.0, regardless of the actual notch dimensions; with non_notch_mode = false
the fallback vertical extent equals the notch height. -/
theorem c9_non_notch_mode_fallback (ew eh nw nh : ℚ) :
    effective_notch_width ⟨ew, eh, true⟩ nw = 0 ∧
    fallback_y_end ⟨ew, eh, true⟩ nh = 1 ∧
    fallback_y_end ⟨ew, eh, false⟩ nh = nh :=
  ⟨rfl, rfl, rfl⟩

/-- C10: the window x-position used by the detector is computed exactly once
when monitoring starts, from the settings current at that moment
(window_x = (screen_width - (notch_width + 160 + extra_width)) / 2), and the
per-tick behaviour never depends on the re-read settings' extra_width or
extra_height — only non_notch_mode matters per tick — so a runtime change of
extra_width does not move the hit-test translation. -/
theorem c10_window_x_frozen :
    (∀ (screen : Option MacScreen) (s0 : WindowSettings),
      (setup_mouse_monitoring screen s0).window_x =
        ((get_screen_info screen).screen_width -
          ((get_screen_info screen).notch_width + 160 + s0.extra_width)) / 2) ∧
    (∀ (cfg : MonitorConfig) (inside : Bool) (ui : Option UiBounds)
        (ch mx my : ℚ) (s t : WindowSettings),
      s.non_notch_mode = t.non_notch_mode →
      tick cfg inside ⟨s, ui, ch, mx, my⟩ = tick cfg inside ⟨t, ui, ch, mx, my⟩) := by
  refine ⟨fun screen s0 => rfl, ?_⟩
  intro cfg inside ui ch mx my s t h
  obtain ⟨ew, eh, m⟩ := s
  obtain ⟨ew2, eh2, m2⟩ := t
  have h2 : m = m2 := h
  subst h2
  rfl

/-- C10 witness: the setup computes window_x from the startup settings, and a
tick behaves identically under two settings that differ in extra_width and
extra_height but share non_notch_mode. -/
theorem c10_witness :
    (setup_mouse_monitoring (some ⟨2000, 1200, 32⟩) ⟨400, 800, false⟩).window_x =
      ((get_screen_info (some ⟨2000, 1200, 32⟩)).screen_width -
        ((get_screen_info (some ⟨2000, 1200, 32⟩)).notch_width + 160 +
          (400 : ℚ))) / 2 ∧
    tick ⟨2000, 1200, 52, 200, 620⟩ false
        ⟨⟨400, 800, false⟩, none, 1200, 1000, 1190⟩ =
      tick ⟨2000, 1200, 52, 200, 620⟩ false
        ⟨⟨999, 0, false⟩, none, 1200, 1000, 1190⟩ :=
  ⟨c10_window_x_frozen.1 (some ⟨2000, 1200, 32⟩) ⟨400, 800, false⟩,
   c10_window_x_frozen.2 ⟨2000, 1200, 52, 200, 620⟩ false none 1200 1000 1190
    ⟨400, 800, false⟩ ⟨999, 0, false⟩ rfl⟩

end OpenNook
